import Mathlib

/-!
Shallow embedding of the job-pipeline orchestrator of lukudoko/videothing
(backend/queue_manager.py, backend/converter.py, backend/whisper_transcriber.py),
together with theorems settling the frozen claims about it.

Conventions of the embedding:
* Python `time.time()` is modelled by a monotone `Nat` clock carried in the
  orchestrator state; every `update_progress` stamps the current clock value and
  advances it.  Only monotonicity and freshness of timestamps matter to any claim.
* Python floats carrying percentages are modelled as rationals; every value the
  code writes (0.0, 100.0, callback ticks) is exact in both representations.
* `ThreadPoolExecutor.submit` is modelled by appending the submitted unit of work
  to an explicit queue list (one list per pool), which is what the claims about
  "enqueues exactly one unit" refer to.
* Exceptions are modelled with `Except String`; a caught exception carries the
  Python `str(e)` text.  Each stage worker body is a total function on the
  orchestrator state: the `try/except` of the source is folded into the
  definition, which is exactly the "no exception escapes the worker" shape.
* Adapter calls (`download_video`, the ffmpeg phase of `convert_video`,
  `whisper.load_model`, `model.transcribe`) are external collaborators; their
  behaviour in one invocation is a parameter (reported progress ticks plus a
  returned value or a raised exception).
-/

set_option autoImplicit false

/-- The `TaskStatus` enum of backend/queue_manager.py (lines 16-24). -/
inductive TaskStatus where
  | QUEUED
  | DOWNLOADING
  | DOWNLOAD_COMPLETED
  | CONVERTING
  | TRANSCRIBING
  | FINALIZED
  | FAILED
  | SKIPPED
  deriving DecidableEq

/-- The `TaskProgress` dataclass of backend/queue_manager.py (lines 26-46).
`timestamp` is a clock tick (see the module comment). -/
structure TaskProgress where
  status : TaskStatus
  progress_percentage : ℚ := 0
  download_speed : Option String := none
  eta : Option String := none
  error_message : Option String := none
  output_path : Option String := none
  message : String := ""
  timestamp : Nat := 0
  filename : Option String := none
  deriving DecidableEq

/-- The keyword arguments a caller may pass to `update_progress`.  A field of
value `none` means "not supplied"; for the `Option`-valued record fields a
supplied `some none` models an explicit Python `field=None`, which the source
honours ("allowing None to override", line 88).  No caller in the repository
passes the `timestamp` keyword, so it is not representable here. -/
structure ProgressUpdate where
  status : Option TaskStatus := none
  progress_percentage : Option ℚ := none
  download_speed : Option (Option String) := none
  eta : Option (Option String) := none
  error_message : Option (Option String) := none
  output_path : Option (Option String) := none
  message : Option String := none
  filename : Option (Option String) := none
  deriving DecidableEq

/-- The ledger: Python dict `self.downloads`, as an insertion-ordered
association list with unique keys (dict keys are unique). -/
abbrev Ledger := List (String × TaskProgress)

/-- Dict lookup `self.downloads.get(url)`. -/
def lookupLedger : Ledger → String → Option TaskProgress
  | [], _ => none
  | (k, v) :: t, url => if k = url then some v else lookupLedger t url

/-- Dict write `self.downloads[url] = rec`: replace in place if the key is
present (dicts keep insertion order), else append. -/
def insertLedger : Ledger → String → TaskProgress → Ledger
  | [], url, r => [(url, r)]
  | (k, v) :: t, url, r => if k = url then (k, r) :: t else (k, v) :: insertLedger t url r

/-- Orchestrator state: the `QueueManager` fields that the claims are about,
plus the model clock and the three pool queues. -/
structure QMState where
  downloads : Ledger
  clock : Nat
  enable_transcription : Bool
  fetchQueue : List (String × String)
  convertQueue : List (String × String)
  transcribeQueue : List (String × String)
  deriving DecidableEq

/-- A fresh `QueueManager` (constructor, lines 50-58), with the transcription
toggle possibly already set through `set_transcription` of the API layer. -/
def initState (enable : Bool) : QMState :=
  { downloads := [], clock := 0, enable_transcription := enable,
    fetchQueue := [], convertQueue := [], transcribeQueue := [] }

/-- The record `TaskProgress(status=TaskStatus.QUEUED, message="Queued.")`
created by `update_progress` for an absent key (line 81). -/
def defaultQueuedRecord (clk : Nat) : TaskProgress :=
  { status := .QUEUED, message := "Queued.", timestamp := clk }

/-- Merge the supplied keyword arguments into the current record
(lines 86-89 of `update_progress`). -/
def applyUpdate (p : TaskProgress) (u : ProgressUpdate) : TaskProgress :=
  { status := u.status.getD p.status,
    progress_percentage := u.progress_percentage.getD p.progress_percentage,
    download_speed := u.download_speed.getD p.download_speed,
    eta := u.eta.getD p.eta,
    error_message := u.error_message.getD p.error_message,
    output_path := u.output_path.getD p.output_path,
    message := u.message.getD p.message,
    timestamp := p.timestamp,
    filename := u.filename.getD p.filename }

/-- The consistency block of `update_progress` (lines 91-113), applied after the
merge: clear speed/eta unless downloading; on FAILED force progress 0 and
substitute a generic error message only when the field is `None`; otherwise
clear the error message; force progress 100 on the three completed statuses;
force progress 0 and clear the output path on QUEUED. -/
def normalizeRecord (c0 : TaskProgress) : TaskProgress :=
  let c1 := if c0.status ≠ .DOWNLOADING then
      { c0 with download_speed := none, eta := none } else c0
  let c2 := if c1.status = .FAILED then
      { c1 with
        progress_percentage := 0,
        error_message := some (c1.error_message.getD "An unknown error occurred.") }
    else { c1 with error_message := none }
  let c3 := if c2.status = .FINALIZED ∨ c2.status = .SKIPPED ∨ c2.status = .DOWNLOAD_COMPLETED then
      { c2 with progress_percentage := 100 } else c2
  if c3.status = .QUEUED then { c3 with progress_percentage := 0, output_path := none } else c3

/-- Merge then normalize then stamp the clock: the record value that
`update_progress` stores for the key. -/
def mergeNorm (cur : TaskProgress) (u : ProgressUpdate) (clk : Nat) : TaskProgress :=
  { normalizeRecord (applyUpdate cur u) with timestamp := clk }

/-- `QueueManager.update_progress` (lines 76-118). -/
def updateProgress (url : String) (u : ProgressUpdate) (s : QMState) : QMState :=
  let cur := (lookupLedger s.downloads url).getD (defaultQueuedRecord s.clock)
  { s with downloads := insertLedger s.downloads url (mergeNorm cur u s.clock),
           clock := s.clock + 1 }

/-- `QueueManager.get_progress` (lines 120-125).  `asdict` copies the record
into a fresh dict; records here are immutable values, which is exactly the
snapshot semantics that copy provides.  The state is returned unchanged to make
the read-only nature of the method a provable statement. -/
def getProgress (s : QMState) (url : String) : Option TaskProgress × QMState :=
  (lookupLedger s.downloads url, s)

/-- Membership of the `active_statuses` set of `is_url_active` (lines 134-137). -/
def isActiveStatus : TaskStatus → Bool
  | .QUEUED | .DOWNLOADING | .DOWNLOAD_COMPLETED | .CONVERTING | .TRANSCRIBING => true
  | _ => false

/-- `QueueManager.is_url_active` (lines 132-142). -/
def isUrlActive (s : QMState) (url : String) : Bool :=
  match lookupLedger s.downloads url with
  | some p => isActiveStatus p.status
  | none => false

/-- Membership of the `final_statuses` set of `clear_finished_progress`
(line 63). -/
def isFinalStatus : TaskStatus → Bool
  | .FINALIZED | .FAILED | .SKIPPED => true
  | _ => false

/-- `QueueManager.clear_finished_progress` (lines 60-74): collect the keys whose
record has a final status, delete them, return how many were deleted.  Since
dict keys are unique, deleting the collected keys is the same as keeping the
entries whose status is not final. -/
def clearFinishedProgress (s : QMState) : Nat × QMState :=
  let removed := s.downloads.filter (fun e => isFinalStatus e.2.status)
  (removed.length,
   { s with downloads := s.downloads.filter (fun e => !isFinalStatus e.2.status) })

/-- The keyword arguments of the `update_progress` call in `add_download_job`
(lines 340-346); `filename=initial_filename` explicitly passes `None`. -/
def queueSubmitUpdate : ProgressUpdate :=
  { status := some .QUEUED, progress_percentage := some 0,
    message := some "Download queued.", filename := some none }

/-- `QueueManager.add_download_job` (lines 329-350).  Returns the Bool result
together with the successor state; the true branch also submits the download
unit of work to the fetch pool. -/
def addDownloadJob (url path : String) (s : QMState) : Bool × QMState :=
  if isUrlActive s url then
    (false, updateProgress url { message := some "Already in progress." } s)
  else
    let s1 := updateProgress url queueSubmitUpdate s
    (true, { s1 with fetchQueue := s1.fetchQueue ++ [(url, path)] })

/-! ### Path helpers (the `os.path` functions the pipeline uses, posix flavour) -/

/-- `os.path.basename`: the part after the last slash. -/
def pyBasename (p : String) : String :=
  String.mk ((p.toList.reverse.takeWhile (fun c => c ≠ '/')).reverse)

/-- `os.path.split`: head and tail around the last slash, trailing slashes
stripped from a non-root head. -/
def pySplitPath (p : String) : String × String :=
  let cs := p.toList
  let tail := (cs.reverse.takeWhile (fun c => c ≠ '/')).reverse
  let headSep := cs.take (cs.length - tail.length)
  let head := if headSep ≠ [] ∧ ¬ headSep.all (fun c => c = '/') then
      (headSep.reverse.dropWhile (fun c => c = '/')).reverse
    else headSep
  (String.mk head, String.mk tail)

/-- `os.path.join folder name` for a relative `name` and a folder without a
trailing slash, the only shape the pipeline produces. -/
def pyJoin (folder name : String) : String := folder ++ "/" ++ name

/-- `os.path.splitext` on a bare file name: split at the last dot, except that a
name whose every character before that dot is itself a dot is not split. -/
def pySplitextName (s : String) : String × String :=
  let cs := s.toList
  let lastDot := (List.range cs.length).foldl
    (fun acc i => if cs.get? i = some '.' then some i else acc) none
  match lastDot with
  | none => (s, "")
  | some i =>
    if (cs.take i).all (fun c => c = '.') then (s, "")
    else (String.mk (cs.take i), String.mk (cs.drop i))

/-- `os.path.splitext` on a full path (the extension never contains a slash). -/
def pySplitext (p : String) : String × String :=
  let ext := (pySplitextName (pyBasename p)).2
  (String.mk (p.toList.take (p.toList.length - ext.toList.length)), ext)

/-- ASCII lower-casing of one character (`str.lower` restricted to the ASCII
range, all that file extensions need). -/
def asciiLower (c : Char) : Char :=
  if 'A' ≤ c ∧ c ≤ 'Z' then Char.ofNat (c.toNat + 32) else c

/-- `str.lower` for the ASCII strings the converter compares. -/
def strLower (s : String) : String := String.mk (s.toList.map asciiLower)

/-- Stand-in for the Python numeric f-string rendering used in progress
messages (`f"Downloading: {v:.1f}%"` and alike); no claim depends on the exact
rendering of the number. -/
def qstr (q : ℚ) : String := toString q.num ++ "d" ++ toString q.den

/-! ### Stage worker bodies -/

/-- The keyword arguments every `except`-handler of the three worker bodies
passes to `update_progress` (lines 181-187, 264-270, 321-327): `status=FAILED`,
the formatted message in both `error_message` and `message`, and progress 0. -/
def failUpdate (m : String) : ProgressUpdate :=
  { status := some .FAILED, error_message := some (some m),
    message := some m, progress_percentage := some 0 }

/-- One invocation of the fetch adapter `download_video`: the progress ticks
`(progress_val, speed, eta)` it reports through the callback, then either the
downloaded file path or a raised exception. -/
structure FetchBehavior where
  ticks : List (ℚ × String × String)
  result : Except String String

/-- The `progress_callback` of `_download_task` (lines 150-157). -/
def downloadTick (url : String) (t : ℚ × String × String) (s : QMState) : QMState :=
  updateProgress url
    { progress_percentage := some t.1, download_speed := some (some t.2.1),
      eta := some (some t.2.2),
      message := some ("Downloading: " ++ qstr t.1 ++ "%") } s

/-- `QueueManager._download_task` (lines 144-187).  On success it submits the
conversion unit of work; on a raised exception the handler upserts FAILED. -/
def runDownloadTask (fetch : FetchBehavior) (url path : String) (s : QMState) : QMState :=
  let s1 := updateProgress url
    { status := some .DOWNLOADING, message := some "Starting download...",
      progress_percentage := some 0 } s
  let s2 := fetch.ticks.foldl (fun st t => downloadTick url t st) s1
  match fetch.result with
  | .ok fp =>
    let s3 := updateProgress url
      { status := some .DOWNLOAD_COMPLETED, output_path := some (some fp),
        message := some "Download completed. Queueing for conversion...",
        progress_percentage := some 100, download_speed := some none,
        eta := some none, filename := some (some (pyBasename fp)) } s2
    { s3 with convertQueue := s3.convertQueue ++ [(url, fp)] }
  | .error e =>
    updateProgress url (failUpdate ("Download failed for " ++ url ++ ": " ++ e)) s2

/-- The dict returned by `convert_video`.  `status` is present at every return
site; `output_file` and `error` are optional keys (subscripting a missing key
raises `KeyError`, which the worker body models below). -/
structure ConvResult where
  status : String
  output_file : Option String := none
  message : String := ""
  error : Option String := none
  deriving DecidableEq

/-- One invocation of the transcode adapter `convert_video` from the worker:
reported percentage ticks, then the returned dict or a raised exception. -/
structure ConvertBehavior where
  ticks : List ℚ
  result : Except String ConvResult

/-- `QueueManager._convert_task` (lines 189-270).  Dict subscripts on missing
keys (`conversion_result["output_file"]`, `conversion_result["error"]`) raise
`KeyError`, caught by the handler with the Python `str(KeyError)` text. -/
def runConvertTask (conv : ConvertBehavior) (url dlpath : String) (s : QMState) : QMState :=
  let sysMsg := fun (e : String) => "Conversion system error for " ++ dlpath ++ ": " ++ e
  let s1 := updateProgress url
    { status := some .CONVERTING, message := some "Starting conversion...",
      progress_percentage := some 0 } s
  let s2 := conv.ticks.foldl
    (fun st p => updateProgress url
      { progress_percentage := some p,
        message := some ("Converting: " ++ qstr p ++ "%") } st) s1
  match conv.result with
  | .error e => updateProgress url (failUpdate (sysMsg e)) s2
  | .ok res =>
    if res.status = "success" then
      match res.output_file with
      | none => updateProgress url (failUpdate (sysMsg "\x27output_file\x27")) s2
      | some outf =>
        if s2.enable_transcription then
          let s3 := updateProgress url
            { status := some .TRANSCRIBING,
              message := some "Conversion completed. Queueing for transcription...",
              progress_percentage := some 0, output_path := some (some outf) } s2
          { s3 with transcribeQueue := s3.transcribeQueue ++ [(url, outf)] }
        else
          updateProgress url
            { status := some .FINALIZED, message := some "Processing completed!",
              progress_percentage := some 100, output_path := some (some outf) } s2
    else if res.status = "skipped" then
      if s2.enable_transcription then
        let s3 := updateProgress url
          { status := some .TRANSCRIBING,
            message := some ("Conversion skipped. Queueing for transcription: " ++ res.message),
            progress_percentage := some 0, output_path := some (some dlpath) } s2
        { s3 with transcribeQueue := s3.transcribeQueue ++ [(url, dlpath)] }
      else
        updateProgress url
          { status := some .SKIPPED,
            message := some ("Conversion skipped: " ++ res.message),
            progress_percentage := some 100, output_path := some (some dlpath) } s2
    else
      match res.error with
      | some e => updateProgress url
          { status := some .FAILED, error_message := some (some e),
            message := some res.message, progress_percentage := some 0 } s2
      | none => updateProgress url (failUpdate (sysMsg "\x27error\x27")) s2

/-- The dict returned by `transcribe_video_with_whisper`.  The worker reads
`message` and `error` through `dict.get` with defaults, so their possible
absence is represented. -/
structure TransResult where
  status : String
  message : Option String := none
  error : Option String := none
  srt_filepath : Option String := none
  deriving DecidableEq

/-- The names bound at module scope in backend/queue_manager.py: the imports of
lines 1-12 and the definitions of the module itself.  `transcribe_video_with_whisper`
is not among them: no import of backend.whisper_transcriber exists in the file. -/
def queueManagerModuleNames : List String :=
  ["threading", "ThreadPoolExecutor", "time", "os", "json", "logging", "Enum",
   "Dict", "Any", "Optional", "Callable", "dataclass", "asdict",
   "download_video", "convert_video", "logger", "TaskStatus", "TaskProgress",
   "QueueManager", "queue_manager", "clear_finished_progress_from_backend",
   "update_download_progress", "add_download_job"]

/-- Python evaluation of a global name inside a function body: a name absent
from the module namespace raises `NameError` with this exact text. -/
def resolveGlobal (n : String) : Except String Unit :=
  if queueManagerModuleNames.contains n then .ok ()
  else .error ("name \x27" ++ n ++ "\x27 is not defined")

/-- One invocation of the transcribe adapter, were it reachable: reported
percentage ticks, then the returned dict or a raised exception. -/
structure TranscribeBehavior where
  ticks : List ℚ
  result : Except String TransResult

/-- The branch of `_transcribe_task` that consumes the adapter result
(lines 298-316): FINALIZED with progress 100 on `status == "success"`,
otherwise FAILED with the `dict.get` defaults. -/
def handleTranscribeResult (res : TransResult) (key : String) (s : QMState) : QMState :=
  if res.status = "success" then
    updateProgress key
      { status := some .FINALIZED, progress_percentage := some 100,
        message := some "Transcription completed. All processing finalized!" } s
  else
    updateProgress key
      { status := some .FAILED,
        error_message := some (some (res.error.getD "Unknown transcription error.")),
        message := some (res.message.getD "Transcription failed."),
        progress_percentage := some 0 } s

/-- `QueueManager._transcribe_task` (lines 272-327).  The call at line 293
evaluates the global name `transcribe_video_with_whisper`; the module never
binds it, so the lookup raises `NameError` inside the `try` block and the
handler upserts FAILED.  The adapter behaviour parameter is consumed only in
the (dead) branch in which the name would have resolved. -/
def runTranscribeTask (tr : TranscribeBehavior) (key path : String) (s : QMState) : QMState :=
  let s1 := updateProgress key
    { status := some .TRANSCRIBING, message := some "Starting transcription...",
      progress_percentage := some 0 } s
  match resolveGlobal "transcribe_video_with_whisper" with
  | .error e =>
    updateProgress key (failUpdate ("Transcription system error for " ++ path ++ ": " ++ e)) s1
  | .ok _ =>
    let s2 := tr.ticks.foldl
      (fun st p => updateProgress key
        { progress_percentage := some p,
          message := some ("Transcribing: " ++ qstr p ++ "%") } st) s1
    match tr.result with
    | .error e =>
      updateProgress key (failUpdate ("Transcription system error for " ++ path ++ ": " ++ e)) s2
    | .ok res => handleTranscribeResult res key s2

/-! ### The transcode adapter `convert_video` (backend/converter.py, lines 34-62)

The early-return logic of `convert_video` is embedded here over an explicit set
of existing paths (posix: `os.path.normcase` is the identity).  The ffmpeg
phase (lines 65-156), which only ever returns a `success` or `failed` dict, is
a parameter applied to the computed output path. -/

def convertVideo (encodePhase : String → ConvResult) (fs : List String)
    (folder fname : String) : ConvResult :=
  let filepath := pyJoin folder fname
  if ¬ fs.contains filepath then
    { status := "failed", error := some "file_not_found",
      message := "File not found for conversion: " ++ filepath }
  else
    let base_name := (pySplitextName (pyBasename filepath)).1
    let original_ext := (pySplitextName (pyBasename filepath)).2
    let output_filepath := pyJoin folder (base_name ++ ".mp4")
    if strLower original_ext = ".mp4" then
      if filepath = output_filepath ∧ fs.contains output_filepath then
        { status := "skipped", message := "File is already an MP4!",
          output_file := some output_filepath }
      else
        { status := "converted", message := "Already MP4, no re-conversion needed.",
          output_file := some filepath }
    else if fs.contains output_filepath then
      { status := "skipped", message := "Output file already exists: " ++ output_filepath }
    else encodePhase output_filepath

/-- The shape of the dict the ffmpeg phase returns on success (line 142). -/
def encodeSuccess : String → ConvResult := fun outf =>
  { status := "success", output_file := some outf, message := "Converted!" }

/-! ### The transcribe adapter and its model singleton
(backend/whisper_transcriber.py) -/

/-- The environment of one `transcribe_video_with_whisper` call: what
`whisper.load_model` would yield right now, whether `os.path.exists` finds the
video, and what `model.transcribe` would yield.  The model object itself is
abstract. -/
structure WhisperEnv where
  loadModel : Except String Unit
  fileExists : Bool
  modelTranscribe : Except String Unit

/-- `_load_whisper_model` (lines 20-36) as explicit state passing over the
module-level cache `_whisper_model`: return the cached model, or invoke the
loader, cache on success, and on failure raise `RuntimeError` leaving the cache
untouched.  The third component counts how often `whisper.load_model` was
invoked. -/
def loadWhisperModel (env : WhisperEnv) (cache : Option Unit) :
    Except String Unit × Option Unit × Nat :=
  match cache with
  | some m => (.ok m, some m, 0)
  | none =>
    match env.loadModel with
    | .ok m => (.ok m, some m, 1)
    | .error e =>
      (.error ("Whisper model loading failed: " ++ e ++
        ". Check your PyTorch/CUDA/Whisper installation."), none, 1)

/-- `transcribe_video_with_whisper` (lines 81-174): load (or fetch the cached)
model, check the file exists, transcribe, write the SRT next to the video;
each failure class is caught and returned as a `failed` dict.  Returns the
result dict, the cache after the call, and the number of loader invocations. -/
def transcribeVideoWithWhisper (env : WhisperEnv) (path : String) (cache : Option Unit) :
    TransResult × Option Unit × Nat :=
  match loadWhisperModel env cache with
  | (.error rte, cache1, n) =>
    ({ status := "failed",
       message := some ("Transcription failed: Model loading error. " ++ rte),
       error := some rte }, cache1, n)
  | (.ok _, cache1, n) =>
    if ¬ env.fileExists then
      let fnf := "Video file not found: " ++ path
      ({ status := "failed",
         message := some ("Transcription failed: File not found. " ++ fnf),
         error := some fnf }, cache1, n)
    else
      match env.modelTranscribe with
      | .error e =>
        ({ status := "failed", message := some ("Transcription failed: " ++ e),
           error := some e }, cache1, n)
      | .ok _ =>
        ({ status := "success",
           message := some "Transcription completed successfully.",
           srt_filepath := some ((pySplitext path).1 ++ ".srt") }, cache1, n)

/-! ### Interleaving model of the lazy model load

`_load_whisper_model` holds no lock: its body is the bare two-step sequence
`if _whisper_model is None:` (line 26) then `_whisper_model = whisper.load_model(...)`
(line 31).  Two transcribe-pool workers calling it concurrently execute these
two steps in some interleaving.  Each step is atomic here, which is generous to
the source: even so, a double load is reachable. -/

/-- Program counter of one worker running `_load_whisper_model`. -/
inductive LoadPC where
  | start
  | willLoad
  | willSkip
  | done
  deriving DecidableEq

/-- Shared cache (`_whisper_model is not None`), the number of
`whisper.load_model` invocations so far, and the two workers. -/
structure RaceState where
  cacheLoaded : Bool
  loadCount : Nat
  pc0 : LoadPC
  pc1 : LoadPC
  deriving DecidableEq

/-- One atomic step of one worker: execute the `is None` test, or the load and
assignment, then finish. -/
def stepLoad (pc : LoadPC) (cacheLoaded : Bool) (loads : Nat) : LoadPC × Bool × Nat :=
  match pc with
  | .start => (if cacheLoaded then .willSkip else .willLoad, cacheLoaded, loads)
  | .willLoad => (.done, true, loads + 1)
  | .willSkip => (.done, cacheLoaded, loads)
  | .done => (.done, cacheLoaded, loads)

/-- Let worker `false` or worker `true` take its next step. -/
def stepRace (s : RaceState) (who : Bool) : RaceState :=
  if who then
    let (pc, c, n) := stepLoad s.pc1 s.cacheLoaded s.loadCount
    { s with pc1 := pc, cacheLoaded := c, loadCount := n }
  else
    let (pc, c, n) := stepLoad s.pc0 s.cacheLoaded s.loadCount
    { s with pc0 := pc, cacheLoaded := c, loadCount := n }

/-- Run a schedule (a list of worker choices). -/
def runRace (sched : List Bool) (s : RaceState) : RaceState :=
  sched.foldl stepRace s

/-- Both workers about to enter `_load_whisper_model` with the singleton still
unloaded. -/
def initRace : RaceState :=
  { cacheLoaded := false, loadCount := 0, pc0 := .start, pc1 := .start }

/-! ### Scenario C (spec section 8): transcription enabled, fetch succeeds,
transcode succeeds, transcribe adapter succeeds. -/

/-- Scenario C fetch adapter behaviour: no ticks, produces `/dl/K3.mp4`. -/
def scenarioCFetch : FetchBehavior := { ticks := [], result := .ok "/dl/K3.mp4" }

/-- Scenario C transcode adapter behaviour: success producing the transcoded
file, the dict shape of converter.py line 142. -/
def scenarioCConv : ConvertBehavior :=
  { ticks := [], result := .ok (encodeSuccess "/dl/K3conv.mp4") }

/-- Scenario C transcribe adapter behaviour: the success dict
`transcribe_video_with_whisper` returns (lines 144-148). -/
def scenarioCTrans : TranscribeBehavior :=
  { ticks := [],
    result := .ok { status := "success",
                    message := some "Transcription completed successfully.",
                    srt_filepath := some "/dl/K3conv.srt" } }

/-- State after submitting `K3` with transcription enabled. -/
def scenarioC1 : QMState := (addDownloadJob "K3" "/dl" (initState true)).2

/-- State after the fetch-stage worker body runs. -/
def scenarioC2 : QMState := runDownloadTask scenarioCFetch "K3" "/dl" scenarioC1

/-- State after the transcode-stage worker body runs on the unit of work the
fetch stage enqueued. -/
def scenarioC3 : QMState := runConvertTask scenarioCConv "K3" "/dl/K3.mp4" scenarioC2

/-- Final state of Scenario C: after the transcribe-stage worker body runs on
the unit of work the transcode stage enqueued. -/
def scenarioC4 : QMState := runTranscribeTask scenarioCTrans "K3" "/dl/K3conv.mp4" scenarioC3

/-! ### Concrete states used by counterexamples and witnesses -/

/-- The record that the `update_progress` call inside `add_download_job`
produces, whatever record (if any) was there before: a fresh QUEUED record. -/
def freshQueuedRecord (clk : Nat) : TaskProgress :=
  { status := .QUEUED, progress_percentage := 0, download_speed := none, eta := none,
    error_message := none, output_path := none, message := "Download queued.",
    timestamp := clk, filename := none }

/-- The cross-field consistency predicate of the ledger records (claim C3),
with "non-empty" relaxed to "non-null" for the FAILED error message — see the
counterexample `update_failed_keeps_empty_error`. -/
def Consistent (r : TaskProgress) : Prop :=
  (r.status ≠ .DOWNLOADING → r.download_speed = none ∧ r.eta = none) ∧
  (r.status = .FAILED → r.progress_percentage = 0 ∧ r.error_message ≠ none) ∧
  (r.status ≠ .FAILED → r.error_message = none) ∧
  ((r.status = .DOWNLOAD_COMPLETED ∨ r.status = .FINALIZED ∨ r.status = .SKIPPED) →
    r.progress_percentage = 100) ∧
  (r.status = .QUEUED → r.progress_percentage = 0 ∧ r.output_path = none)

/-- A job mid-download, exactly as the fetch callback leaves it. -/
def dlRecordK4 : TaskProgress :=
  { status := .DOWNLOADING, progress_percentage := 42, download_speed := some "1.0MiBps",
    eta := some "00:10", message := "Downloading", timestamp := 5 }

/-- A ledger holding the single in-flight job `K4`. -/
def stateK4 : QMState :=
  { downloads := [("K4", dlRecordK4)], clock := 6, enable_transcription := false,
    fetchQueue := [], convertQueue := [], transcribeQueue := [] }

/-- A ledger holding one terminal (FAILED) record and one active record. -/
def mixedState : QMState :=
  { downloads := [("a", { status := .FAILED, error_message := some "x",
                          message := "m", timestamp := 1 }), ("K4", dlRecordK4)],
    clock := 7, enable_transcription := false,
    fetchQueue := [], convertQueue := [], transcribeQueue := [] }

set_option maxRecDepth 10000

/-! ### Ledger lemmas -/

theorem lookupLedger_insert (l : Ledger) (url : String) (v : TaskProgress) :
    lookupLedger (insertLedger l url v) url = some v := by
  induction l with
  | nil => simp [insertLedger, lookupLedger]
  | cons e t ih =>
    obtain ⟨k, w⟩ := e
    by_cases h : k = url <;> simp [insertLedger, lookupLedger, h, ih]

theorem lookupLedger_insert_ne (l : Ledger) (url url' : String) (v : TaskProgress)
    (h : url' ≠ url) :
    lookupLedger (insertLedger l url v) url' = lookupLedger l url' := by
  induction l with
  | nil => simp [insertLedger, lookupLedger, Ne.symm h]
  | cons e t ih =>
    obtain ⟨k, w⟩ := e
    by_cases hk : k = url
    · subst hk
      simp [insertLedger, lookupLedger, Ne.symm h]
    · simp [insertLedger, lookupLedger, hk, ih]

theorem mem_of_lookupLedger (l : Ledger) (url : String) (r : TaskProgress)
    (h : lookupLedger l url = some r) : (url, r) ∈ l := by
  induction l with
  | nil => simp [lookupLedger] at h
  | cons e t ih =>
    obtain ⟨k, w⟩ := e
    by_cases hk : k = url
    · subst hk
      simp [lookupLedger] at h
      simp [h]
    · simp [lookupLedger, hk] at h
      exact List.mem_cons_of_mem _ (ih h)

theorem lookupLedger_filter_keep (l : Ledger) (p : String × TaskProgress → Bool)
    (url : String) (r : TaskProgress)
    (h : lookupLedger l url = some r) (hp : p (url, r) = false) :
    lookupLedger (l.filter (fun e => !p e)) url = some r := by
  induction l with
  | nil => simp [lookupLedger] at h
  | cons e t ih =>
    obtain ⟨k, w⟩ := e
    by_cases hk : k = url
    · subst hk
      simp [lookupLedger] at h
      subst h
      simp [List.filter, hp, lookupLedger]
    · simp [lookupLedger, hk] at h
      cases hw : p (k, w) <;> simp [List.filter, hw, lookupLedger, hk, ih h]

theorem filter_not_filter_self (l : Ledger) (p : String × TaskProgress → Bool) :
    (l.filter (fun e => !p e)).filter (fun e => p e) = [] := by
  induction l with
  | nil => rfl
  | cons e t ih => cases he : p e <;> simp [List.filter, he, ih]

theorem filter_length_split (l : Ledger) (p : String × TaskProgress → Bool) :
    (l.filter (fun e => p e)).length + (l.filter (fun e => !p e)).length = l.length := by
  induction l with
  | nil => rfl
  | cons e t ih => cases he : p e <;> simp [List.filter, he] <;> omega

/-! ### Record-normalization lemmas -/

theorem mergeNorm_failedShape (cur : TaskProgress) (clk : Nat) (m msg : String) :
    mergeNorm cur { status := some .FAILED, error_message := some (some m),
                    message := some msg, progress_percentage := some 0 } clk
      = { status := .FAILED, progress_percentage := 0, download_speed := none, eta := none,
          error_message := some m, output_path := cur.output_path, message := msg,
          timestamp := clk, filename := cur.filename } := by
  cases cur
  rfl

theorem mergeNorm_failUpdate (cur : TaskProgress) (clk : Nat) (m : String) :
    mergeNorm cur (failUpdate m) clk
      = { status := .FAILED, progress_percentage := 0, download_speed := none, eta := none,
          error_message := some m, output_path := cur.output_path, message := m,
          timestamp := clk, filename := cur.filename } := by
  cases cur
  rfl

theorem mergeNorm_queueSubmit (cur : TaskProgress) (clk : Nat) :
    mergeNorm cur queueSubmitUpdate clk = freshQueuedRecord clk := by
  cases cur
  rfl

theorem normalizeRecord_consistent (c : TaskProgress) : Consistent (normalizeRecord c) := by
  obtain ⟨st, pct, sp, et, er, op, ms, ts, fn⟩ := c
  cases st <;> simp [normalizeRecord, Consistent]

theorem mergeNorm_consistent (cur : TaskProgress) (u : ProgressUpdate) (clk : Nat) :
    Consistent (mergeNorm cur u clk) := by
  have h := normalizeRecord_consistent (applyUpdate cur u)
  obtain ⟨r1, r2, r3, r4, r5, r6, r7, r8, r9⟩ := normalizeRecord (applyUpdate cur u)
  exact h

theorem normalizeRecord_message (c : TaskProgress) (m : String) :
    normalizeRecord { c with message := m } = { normalizeRecord c with message := m } := by
  obtain ⟨st, pct, sp, et, er, op, ms, ts, fn⟩ := c
  cases st <;> rfl

/-- Normalization never reads nor writes the message or the timestamp, so the
merge-and-normalize of any update that supplies a message gives the same record
whether or not a rejected duplicate submission overwrote the message before. -/
theorem mergeNorm_message_erased (r : TaskProgress) (u : ProgressUpdate) (clk clk' : Nat)
    (h : u.message.isSome = true) :
    mergeNorm { r with message := "Already in progress.", timestamp := clk' } u clk
      = mergeNorm r u clk := by
  obtain ⟨st, pct, sp, et, er, op, ms, ts, fn⟩ := r
  obtain ⟨us, up, ud, ue, uer, uo, um, uf⟩ := u
  cases um with
  | none => simp at h
  | some msg =>
    cases us with
    | none => cases st <;> rfl
    | some st2 => cases st2 <;> rfl

/-- For a record already in normal form, the rejected-duplicate update (which
supplies only `message`) changes exactly the message and the timestamp. -/
theorem mergeNorm_message_only (r : TaskProgress) (clk : Nat) (M : String)
    (h : normalizeRecord r = r) :
    mergeNorm r { message := some M } clk = { r with message := M, timestamp := clk } := by
  have h1 : applyUpdate r { message := some M } = { r with message := M } := by
    obtain ⟨st, pct, sp, et, er, op, ms, ts, fn⟩ := r
    rfl
  rw [mergeNorm, h1, normalizeRecord_message, h]

/-! ### `update_progress` as seen through the ledger -/

theorem updateProgress_lookup (url : String) (u : ProgressUpdate) (s : QMState) :
    lookupLedger (updateProgress url u s).downloads url
      = some (mergeNorm ((lookupLedger s.downloads url).getD (defaultQueuedRecord s.clock))
          u s.clock) := by
  simp [updateProgress, lookupLedger_insert]

theorem updateProgress_lookup_ne (url url' : String) (u : ProgressUpdate) (s : QMState)
    (h : url' ≠ url) :
    lookupLedger (updateProgress url u s).downloads url' = lookupLedger s.downloads url' := by
  simp [updateProgress, lookupLedger_insert_ne _ _ _ _ h]

theorem update_failUpdate_lookup (url m : String) (s : QMState) :
    ∃ r, lookupLedger (updateProgress url (failUpdate m) s).downloads url = some r ∧
      r.status = .FAILED ∧ r.progress_percentage = 0 ∧ r.error_message = some m := by
  refine ⟨_, updateProgress_lookup url (failUpdate m) s, ?_, ?_, ?_⟩ <;>
    rw [mergeNorm_failUpdate]

theorem isActiveStatus_iff (st : TaskStatus) :
    isActiveStatus st = true ↔
      (st = .QUEUED ∨ st = .DOWNLOADING ∨ st = .DOWNLOAD_COMPLETED ∨
       st = .CONVERTING ∨ st = .TRANSCRIBING) := by
  cases st <;> simp [isActiveStatus]

theorem isUrlActive_iff (s : QMState) (url : String) :
    isUrlActive s url = true ↔
      ∃ r, lookupLedger s.downloads url = some r ∧ isActiveStatus r.status = true := by
  unfold isUrlActive
  cases h : lookupLedger s.downloads url <;> simp [h]

theorem addDownloadJob_rejects (s : QMState) (url path : String)
    (h : isUrlActive s url = true) : (addDownloadJob url path s).1 = false := by
  simp [addDownloadJob, h]

/-! ### The claims -/

/-- Claim C1.  The claim says that a successful transcribe-adapter outcome is
upserted as FINALIZED with progress 100, and that Scenario C ends FINALIZED.
The code disagrees: backend/queue_manager.py calls
`transcribe_video_with_whisper` (line 293) without ever importing it, so the
transcribe-stage worker body raises `NameError` before the adapter can run, and
the handler upserts FAILED.  This theorem evaluates the whole Scenario C run:
submission, fetch success, transcode success, and a transcribe adapter that
would return success, ending with a FAILED record of progress 0 and the
`NameError` text; the final conjunct shows the success branch of the worker
(`handleTranscribeResult`) would indeed produce FINALIZED with progress 100,
so the claim matches the intent and the missing import is the slip. -/
theorem scenarioC_ends_failed :
    (lookupLedger scenarioC4.downloads "K3").map
        (fun r => (r.status, r.progress_percentage, r.error_message))
      = some (.FAILED, 0, some ("Transcription system error for /dl/K3conv.mp4: " ++
          "name \x27transcribe_video_with_whisper\x27 is not defined")) ∧
    scenarioC3.transcribeQueue = [("K3", "/dl/K3conv.mp4")] ∧
    scenarioCTrans.result
      = .ok { status := "success",
              message := some "Transcription completed successfully.",
              srt_filepath := some "/dl/K3conv.srt" } ∧
    (lookupLedger (handleTranscribeResult { status := "success" } "K3" scenarioC3).downloads
        "K3").map (fun r => (r.status, r.progress_percentage))
      = some (.FINALIZED, 100) := by
  refine ⟨by decide, by decide, rfl, by decide⟩

/-- Claim C2.  `add_download_job` returns false exactly when a record for the
key exists whose status is one of the five active statuses; otherwise it
returns true, stores a fresh QUEUED record for the key (whatever record was
there before), appends exactly one unit of work to the fetch pool, and an
immediately following second submission of the same key returns false. -/
theorem submit_admission_spec (s : QMState) (url path : String) :
    ((addDownloadJob url path s).1 = false ↔
      ∃ r, lookupLedger s.downloads url = some r ∧
        (r.status = .QUEUED ∨ r.status = .DOWNLOADING ∨ r.status = .DOWNLOAD_COMPLETED ∨
         r.status = .CONVERTING ∨ r.status = .TRANSCRIBING)) ∧
    ((addDownloadJob url path s).1 = true →
      lookupLedger (addDownloadJob url path s).2.downloads url
          = some (freshQueuedRecord s.clock) ∧
      (addDownloadJob url path s).2.fetchQueue = s.fetchQueue ++ [(url, path)] ∧
      ∀ path2, (addDownloadJob url path2 (addDownloadJob url path s).2).1 = false) := by
  by_cases h : isUrlActive s url
  · constructor
    · obtain ⟨r, hr, ha⟩ := (isUrlActive_iff s url).mp h
      simp [addDownloadJob, h]
      exact ⟨r, hr, (isActiveStatus_iff r.status).mp ha⟩
    · simp [addDownloadJob, h]
  · have hlook : lookupLedger (addDownloadJob url path s).2.downloads url
        = some (freshQueuedRecord s.clock) := by
      simp only [addDownloadJob, h, if_false, Bool.false_eq_true]
      rw [show ((true, { updateProgress url queueSubmitUpdate s with
        fetchQueue := (updateProgress url queueSubmitUpdate s).fetchQueue ++ [(url, path)] }) :
          Bool × QMState).2.downloads = (updateProgress url queueSubmitUpdate s).downloads from rfl]
      rw [updateProgress_lookup, mergeNorm_queueSubmit]
    constructor
    · constructor
      · intro hfalse
        simp [addDownloadJob, h] at hfalse
      · rintro ⟨r, hr, hd⟩
        exact absurd ((isUrlActive_iff s url).mpr
          ⟨r, hr, (isActiveStatus_iff r.status).mpr hd⟩) h
    · intro _
      refine ⟨hlook, ?_, ?_⟩
      · simp [addDownloadJob, h, updateProgress]
      · intro path2
        have hact : isUrlActive (addDownloadJob url path s).2 url = true := by
          rw [isUrlActive_iff]
          exact ⟨freshQueuedRecord s.clock, hlook, rfl⟩
        exact addDownloadJob_rejects _ _ _ hact

/-- Claim C2, witness: a first submission on an empty ledger is accepted,
stores the fresh QUEUED record, enqueues the fetch unit, and the second
submission of the same key is rejected. -/
theorem submit_admission_spec_w :
    lookupLedger ((addDownloadJob "u" "/p" (initState false)).2).downloads "u"
        = some (freshQueuedRecord 0) ∧
    (addDownloadJob "u" "/p" (initState false)).2.fetchQueue = [("u", "/p")] ∧
    (addDownloadJob "u" "/q" ((addDownloadJob "u" "/p" (initState false)).2)).1 = false := by
  have h := (submit_admission_spec (initState false) "u" "/p").2 (by decide)
  exact ⟨h.1, h.2.1, h.2.2 "/q"⟩

/-- Claim C3, counterexample.  The claim requires a FAILED record to carry a
non-empty error message, the generic one substituted when the caller supplied
none.  The code substitutes only when the field `is None` (line 100): a caller
passing `status=FAILED, error_message=""` leaves the empty string in place, so
the stored FAILED record has an empty (though non-null) error message. -/
theorem update_failed_keeps_empty_error :
    (lookupLedger (updateProgress "job"
        { status := some .FAILED, error_message := some (some "") }
        (initState false)).downloads "job").map (fun r => (r.status, r.error_message))
      = some (.FAILED, some "") := by decide

/-- Claim C3, amended: after every `update_progress`, whatever fields the
caller supplied, the record stored for the key satisfies the cross-field rules
with "errorMessage non-empty" weakened to "errorMessage non-null" (the generic
message is substituted only when the merged field is null; a supplied empty
string is kept). -/
theorem update_consistent_amended (s : QMState) (url : String) (u : ProgressUpdate) :
    ∃ r, lookupLedger (updateProgress url u s).downloads url = some r ∧ Consistent r :=
  ⟨_, updateProgress_lookup url u s, mergeNorm_consistent _ _ _⟩

/-- Claim C3, witness: an update supplying only `status=FAILED` yields a record
with progress 0 and a non-null error message. -/
theorem update_consistent_amended_w :
    ∃ r, lookupLedger (updateProgress "job" { status := some .FAILED }
        (initState false)).downloads "job" = some r ∧
      r.progress_percentage = 0 ∧ r.error_message ≠ none := by
  obtain ⟨r, hr, hc⟩ := update_consistent_amended (initState false) "job"
    { status := some .FAILED }
  have h0 : lookupLedger (updateProgress "job" { status := some .FAILED }
      (initState false)).downloads "job"
      = some { status := .FAILED, progress_percentage := 0,
               error_message := some "An unknown error occurred.",
               message := "Queued.", timestamp := 0 } := by decide
  have hrc : r.status = .FAILED := by
    rw [h0] at hr
    rw [← Option.some.inj hr]
  exact ⟨r, hr, (hc.2.1 hrc).1, (hc.2.1 hrc).2⟩

/-- Claim C4.  The claim says the transcode adapter returns one of
`success | skipped | failed`.  The code has a fourth outcome: for an existing
input whose extension merely lower-cases to `.mp4` (here `video.MP4` with no
`video.mp4` beside it) `convert_video` returns `status="converted"`
(converter.py line 57), and the worker body, whose else-branch subscripts the
missing `"error"` key, then fails the job with a KeyError system message —
although the converter comments say this case should count as already done. -/
theorem converter_fourth_status_converted :
    (convertVideo encodeSuccess ["/d/video.MP4"] "/d" "video.MP4").status = "converted" ∧
    ¬ ((convertVideo encodeSuccess ["/d/video.MP4"] "/d" "video.MP4").status = "success" ∨
       (convertVideo encodeSuccess ["/d/video.MP4"] "/d" "video.MP4").status = "skipped" ∨
       (convertVideo encodeSuccess ["/d/video.MP4"] "/d" "video.MP4").status = "failed") ∧
    (lookupLedger (runConvertTask
        { ticks := [],
          result := .ok (convertVideo encodeSuccess ["/d/video.MP4"] "/d" "video.MP4") }
        "K" "/d/video.MP4" (initState false)).downloads "K").map
        (fun r => (r.status, r.progress_percentage, r.error_message))
      = some (.FAILED, 0, some "Conversion system error for /d/video.MP4: \x27error\x27") := by
  decide

/-- Claim C5, counterexample.  The claim says a rejected duplicate submission
changes no field of the existing record, message and timestamp included.  The
rejected branch of `add_download_job` (line 334) upserts
`message="Already in progress."`, which also refreshes the timestamp, so the
record does change. -/
theorem rejected_submit_mutates_message :
    (addDownloadJob "K4" "/dl" stateK4).1 = false ∧
    (lookupLedger (addDownloadJob "K4" "/dl" stateK4).2.downloads "K4").map
        (fun r => r.message) = some "Already in progress." ∧
    dlRecordK4.message ≠ "Already in progress." ∧
    lookupLedger (addDownloadJob "K4" "/dl" stateK4).2.downloads "K4" ≠ some dlRecordK4 := by
  decide

/-- Claim C5, amended: a rejected duplicate submission returns false, leaves
every field of the first job's record except `message` (overwritten with
"Already in progress.") and `timestamp` (refreshed) unchanged, touches no other
record and no pool queue, and any subsequent progress update of the first job
that supplies a message (as every stage update and callback does) produces
exactly the record it would have produced had the rejected call never happened. -/
theorem rejected_submit_frame_amended (s : QMState) (url path : String) (r : TaskProgress)
    (h1 : lookupLedger s.downloads url = some r)
    (h2 : isActiveStatus r.status = true)
    (h3 : normalizeRecord r = r) :
    (addDownloadJob url path s).1 = false ∧
    (addDownloadJob url path s).2.downloads
      = insertLedger s.downloads url
          { r with message := "Already in progress.", timestamp := s.clock } ∧
    (addDownloadJob url path s).2.fetchQueue = s.fetchQueue ∧
    (addDownloadJob url path s).2.convertQueue = s.convertQueue ∧
    (addDownloadJob url path s).2.transcribeQueue = s.transcribeQueue ∧
    (∀ url', url' ≠ url →
      lookupLedger (addDownloadJob url path s).2.downloads url'
        = lookupLedger s.downloads url') ∧
    (∀ (u : ProgressUpdate) (clk : Nat), u.message.isSome = true →
      mergeNorm { r with message := "Already in progress.", timestamp := s.clock } u clk
        = mergeNorm r u clk) := by
  have hact : isUrlActive s url = true := (isUrlActive_iff s url).mpr ⟨r, h1, h2⟩
  have hb : addDownloadJob url path s
      = (false, updateProgress url { message := some "Already in progress." } s) := by
    simp [addDownloadJob, hact]
  rw [hb]
  refine ⟨rfl, ?_, rfl, rfl, rfl, ?_, ?_⟩
  · simp [updateProgress, h1, mergeNorm_message_only r s.clock _ h3]
  · intro url' hne
    exact updateProgress_lookup_ne _ _ _ _ hne
  · intro u clk hm
    exact mergeNorm_message_erased r u clk s.clock hm

/-- Claim C5, witness: the amended frame property applied to the concrete
in-flight job `K4`. -/
theorem rejected_submit_frame_amended_w :
    (addDownloadJob "K4" "/dl" stateK4).1 = false ∧
    (addDownloadJob "K4" "/dl" stateK4).2.fetchQueue = [] := by
  have h := rejected_submit_frame_amended stateK4 "K4" "/dl" dlRecordK4
    (by decide) (by decide) (by decide)
  exact ⟨h.1, h.2.2.1⟩

/-- Claim C6.  Each of the three stage worker bodies is a total function of the
state (the `try/except` of the source is part of the definition, so no
exception can escape the pool worker), and whenever the stage raises — a fetch
adapter exception, a transcode adapter exception, or, in the transcribe body,
the `NameError` from the missing import, which fires for every adapter
behaviour — the handler converts it into a FAILED upsert for the job's key with
the corresponding formatted message. -/
theorem worker_exceptions_contained :
    (∀ (ticks : List (ℚ × String × String)) (e url path : String) (s : QMState),
      ∃ r, lookupLedger
          (runDownloadTask { ticks := ticks, result := .error e } url path s).downloads url
        = some r ∧ r.status = .FAILED ∧ r.progress_percentage = 0 ∧
        r.error_message = some ("Download failed for " ++ url ++ ": " ++ e)) ∧
    (∀ (ticks : List ℚ) (e url dlpath : String) (s : QMState),
      ∃ r, lookupLedger
          (runConvertTask { ticks := ticks, result := .error e } url dlpath s).downloads url
        = some r ∧ r.status = .FAILED ∧ r.progress_percentage = 0 ∧
        r.error_message = some ("Conversion system error for " ++ dlpath ++ ": " ++ e)) ∧
    (∀ (tr : TranscribeBehavior) (key path : String) (s : QMState),
      ∃ r, lookupLedger (runTranscribeTask tr key path s).downloads key = some r ∧
        r.status = .FAILED ∧ r.progress_percentage = 0 ∧
        r.error_message = some ("Transcription system error for " ++ path ++ ": " ++
          "name \x27transcribe_video_with_whisper\x27 is not defined")) := by
  refine ⟨?_, ?_, ?_⟩
  · intro ticks e url path s
    exact update_failUpdate_lookup url _ _
  · intro ticks e url dlpath s
    exact update_failUpdate_lookup url _ _
  · intro tr key path s
    have hres : resolveGlobal "transcribe_video_with_whisper"
        = .error ("name \x27transcribe_video_with_whisper\x27 is not defined") := rfl
    simp only [runTranscribeTask, hres]
    exact update_failUpdate_lookup key _ _

/-- Claim C7.  When `whisper.load_model` fails, `_load_whisper_model` raises
and `transcribe_video_with_whisper` returns a `failed` outcome (which the
worker branch `handleTranscribeResult` upserts as a FAILED record, last
conjunct), the cached singleton stays `None`, and any later call with the cache
still empty invokes the loader again — with a then-working loader the retry
succeeds. -/
theorem model_load_failure_spec (e path : String) (fe : Bool) (mt : Except String Unit) :
    (transcribeVideoWithWhisper
        { loadModel := .error e, fileExists := fe, modelTranscribe := mt } path none).1.status
      = "failed" ∧
    (transcribeVideoWithWhisper
        { loadModel := .error e, fileExists := fe, modelTranscribe := mt } path none).2.1
      = none ∧
    (transcribeVideoWithWhisper
        { loadModel := .error e, fileExists := fe, modelTranscribe := mt } path none).2.2
      = 1 ∧
    (∀ env : WhisperEnv, (loadWhisperModel env none).2.2 = 1) ∧
    (transcribeVideoWithWhisper
        { loadModel := .ok (), fileExists := true, modelTranscribe := .ok () } path none).1.status
      = "success" ∧
    (∀ (key : String) (s : QMState) (em msg srt : Option String),
      ∃ r, lookupLedger (handleTranscribeResult
          { status := "failed", message := msg, error := em, srt_filepath := srt }
          key s).downloads key = some r ∧
        r.status = .FAILED ∧ r.progress_percentage = 0 ∧
        r.error_message = some (em.getD "Unknown transcription error.")) := by
  refine ⟨rfl, rfl, rfl, ?_, rfl, ?_⟩
  · intro env
    obtain ⟨lm, fe2, mt2⟩ := env
    cases lm <;> rfl
  · intro key s em msg srt
    refine ⟨_, updateProgress_lookup key _ s, ?_, ?_, ?_⟩ <;>
      rw [mergeNorm_failedShape]

/-- Claim C8, counterexample.  `_load_whisper_model` holds no lock at all, so
the claimed "instantiated at most once even when multiple transcribe workers
race" fails: in the interleaving where both workers pass the `is None` test
before either assigns, the model is instantiated twice. -/
theorem unlocked_load_races_twice :
    (runRace [false, true, false, true] initRace).loadCount = 2 ∧
    ¬ (∀ sched : List Bool, (runRace sched initRace).loadCount ≤ 1) := by
  refine ⟨by decide, fun h => ?_⟩
  have h1 := h [false, true, false, true]
  have h2 : (runRace [false, true, false, true] initRace).loadCount = 2 := by decide
  omega

/-- Claim C8, amended: the singleton is lazily instantiated on first use and at
most once across non-overlapping calls (a second sequential caller sees the
cache and does not reload), but the load is guarded only by an unsynchronized
`is None` check — there is no lock and no check-again-after-acquiring pattern —
so two racing first callers can instantiate it twice. -/
theorem lazy_load_amended :
    (runRace [] initRace).loadCount = 0 ∧
    (runRace [] initRace).cacheLoaded = false ∧
    (runRace [false, false] initRace).loadCount = 1 ∧
    (runRace [false, false] initRace).cacheLoaded = true ∧
    (runRace [false, false, true, true] initRace).loadCount = 1 ∧
    (runRace [false, true, false, true] initRace).loadCount = 2 := by decide

/-- Claim C9.  `clear_finished_progress` removes exactly the records whose
status is FINALIZED, FAILED or SKIPPED, returns how many it removed (removed
plus remaining accounts for every entry), keeps every non-terminal record
unchanged and looked up as before, leaves no terminal record behind, and a
second immediate call therefore returns 0. -/
theorem clear_finished_spec (s : QMState) :
    (clearFinishedProgress s).2.downloads
        = s.downloads.filter (fun e => !isFinalStatus e.2.status) ∧
    (clearFinishedProgress s).1
        = (s.downloads.filter (fun e => isFinalStatus e.2.status)).length ∧
    (clearFinishedProgress s).1 + (clearFinishedProgress s).2.downloads.length
        = s.downloads.length ∧
    (∀ url r, lookupLedger (clearFinishedProgress s).2.downloads url = some r →
      isFinalStatus r.status = false) ∧
    (∀ url r, lookupLedger s.downloads url = some r → isFinalStatus r.status = false →
      lookupLedger (clearFinishedProgress s).2.downloads url = some r) ∧
    (clearFinishedProgress (clearFinishedProgress s).2).1 = 0 := by
  refine ⟨rfl, rfl, ?_, ?_, ?_, ?_⟩
  · exact filter_length_split s.downloads (fun e => isFinalStatus e.2.status)
  · intro url r h
    have hm := mem_of_lookupLedger _ _ _ h
    have := (List.mem_filter.mp hm).2
    simpa using this
  · intro url r h hf
    exact lookupLedger_filter_keep s.downloads (fun e => isFinalStatus e.2.status) url r h hf
  · have := filter_not_filter_self s.downloads (fun e => isFinalStatus e.2.status)
    simp [clearFinishedProgress, this]

/-- Claim C9, witness: on a ledger with one FAILED and one DOWNLOADING record,
the first call removes exactly one entry and keeps the active record, and the
second call removes nothing. -/
theorem clear_finished_spec_w :
    (clearFinishedProgress mixedState).1 = 1 ∧
    lookupLedger (clearFinishedProgress mixedState).2.downloads "K4" = some dlRecordK4 ∧
    (clearFinishedProgress (clearFinishedProgress mixedState).2).1 = 0 := by
  have h := clear_finished_spec mixedState
  exact ⟨by decide, h.2.2.2.2.1 "K4" dlRecordK4 (by decide) (by decide), h.2.2.2.2.2⟩

/-- Claim C10.  `get_progress` never modifies the orchestrator state — in
particular, unlike `update_progress`, it creates no record for an absent key
(last conjunct shows the contrast: the same upsert does create one) — and for a
present key it returns exactly the stored record; since records of this
embedding are immutable values, mirroring the `asdict` copy of the source, a
returned snapshot cannot be altered by later ledger mutations. -/
theorem get_progress_readonly (s : QMState) (url : String) :
    (getProgress s url).2 = s ∧
    ((getProgress s url).1 = none ↔ lookupLedger s.downloads url = none) ∧
    (∀ r, lookupLedger s.downloads url = some r → (getProgress s url).1 = some r) ∧
    (∀ u : ProgressUpdate, lookupLedger (updateProgress url u s).downloads url ≠ none) := by
  refine ⟨rfl, Iff.rfl, fun r h => h, ?_⟩
  intro u
  rw [updateProgress_lookup]
  exact Option.some_ne_none _

/-- Claim C10, witness: an absent key reads back as `None`, a present key reads
back as its record, and the upsert contrast holds at a concrete input. -/
theorem get_progress_readonly_w :
    (getProgress (initState false) "u").1 = none ∧
    (getProgress mixedState "K4").1 = some dlRecordK4 ∧
    lookupLedger (updateProgress "u" {} (initState false)).downloads "u" ≠ none := by
  have h1 := get_progress_readonly (initState false) "u"
  have h2 := get_progress_readonly mixedState "K4"
  exact ⟨h1.2.1.mpr (by decide), h2.2.2.1 dlRecordK4 (by decide), h1.2.2.2 {}⟩
